import Mathlib

/-!
# Verification of the path-finder single-page client (`src/path-finder/src/App.tsx`)

Shallow embedding of the app's pure logic and event handlers:

* the graph data model (`GraphNode`, `GraphEdge`, `GraphData`) and the
  render-model types (`FGNode`, `FGLink`, `FGData`);
* the render adapter `fgData` (App.tsx lines 55-69);
* the prompt template built in `handleSubmit` (lines 85-107);
* the submission handler `handleSubmit` (lines 71-136), with the network
  response and the external `JSON.parse` given as explicit parameters;
* the selection handlers `onNodeClick` / `onBackgroundClick` (lines 186-187);
* the canvas-size computation of the ResizeObserver effect (lines 42-53);
* the node drawing parameters of `nodeCanvasObject` (lines 188-200);
* the auto-fit timer effect (lines 139-145) as a small state machine over
  `setTimeout` / `clearTimeout` and React's effect-cleanup discipline.
-/

/-- `GraphNode` from App.tsx lines 5-9 (`description` is optional; the
TypeScript field `id`/`label` are strings). -/
structure GraphNode where
  id : String
  label : String
  description : Option String
deriving DecidableEq, Repr

/-- `GraphEdge` from App.tsx lines 11-15. TypeScript's field `from` is a Lean
keyword, embedded as `from_`. -/
structure GraphEdge where
  from_ : String
  to_ : String
  relation : Option String
deriving DecidableEq, Repr

/-- `GraphData` from App.tsx lines 17-20. -/
structure GraphData where
  nodes : List GraphNode
  edges : List GraphEdge
deriving DecidableEq, Repr

/-- `FGNode` from App.tsx line 25. -/
structure FGNode where
  id : String
  name : String
  description : Option String
deriving DecidableEq, Repr

/-- `FGLink` from App.tsx line 26. -/
structure FGLink where
  source : String
  target : String
  relation : Option String
deriving DecidableEq, Repr

/-- `FGData` from App.tsx line 27. -/
structure FGData where
  nodes : List FGNode
  links : List FGLink
deriving DecidableEq, Repr

/-- The non-null branch of the `fgData` memo (App.tsx lines 57-68): each node
is re-projected as `{ id, name: label, description }`, each edge as
`{ source: from, target: to, relation }`. -/
def fgOfGraph (g : GraphData) : FGData :=
  { nodes := g.nodes.map (fun n => { id := n.id, name := n.label, description := n.description })
    links := g.edges.map (fun e => { source := e.from_, target := e.to_, relation := e.relation }) }

/-- The `fgData` memo (App.tsx lines 55-69): `null` graph maps to `null`. -/
def fgData : Option GraphData → Option FGData
  | none => none
  | some g => some (fgOfGraph g)

/-- The inverse re-projection described by the spec's round-trip property
("and back"): `name` back to `label`, `source`/`target` back to `from`/`to`. -/
def graphOfFG (d : FGData) : GraphData :=
  { nodes := d.nodes.map (fun n => { id := n.id, label := n.name, description := n.description })
    edges := d.links.map (fun l => { from_ := l.source, to_ := l.target, relation := l.relation }) }

/-- C1: the Render Adapter maps each GraphNode to a render node with the same
id, `name` equal to the node's `label`, and `description` carried through
unchanged, and each GraphEdge to a render link with `source` = `from`,
`target` = `to`, and `relation` carried through unchanged; mapping through
the adapter and back preserves the whole GraphData identically. -/
theorem fgData_adapter_roundtrip (g : GraphData) :
    (fgOfGraph g).nodes.length = g.nodes.length ∧
    (fgOfGraph g).links.length = g.edges.length ∧
    (∀ i (h : i < g.nodes.length) (h2 : i < (fgOfGraph g).nodes.length),
      ((fgOfGraph g).nodes.get ⟨i, h2⟩).id = (g.nodes.get ⟨i, h⟩).id ∧
      ((fgOfGraph g).nodes.get ⟨i, h2⟩).name = (g.nodes.get ⟨i, h⟩).label ∧
      ((fgOfGraph g).nodes.get ⟨i, h2⟩).description = (g.nodes.get ⟨i, h⟩).description) ∧
    (∀ i (h : i < g.edges.length) (h2 : i < (fgOfGraph g).links.length),
      ((fgOfGraph g).links.get ⟨i, h2⟩).source = (g.edges.get ⟨i, h⟩).from_ ∧
      ((fgOfGraph g).links.get ⟨i, h2⟩).target = (g.edges.get ⟨i, h⟩).to_ ∧
      ((fgOfGraph g).links.get ⟨i, h2⟩).relation = (g.edges.get ⟨i, h⟩).relation) ∧
    graphOfFG (fgOfGraph g) = g := by
  refine ⟨by simp [fgOfGraph], by simp [fgOfGraph], ?_, ?_, ?_⟩
  · intro i h h2
    simp [fgOfGraph]
  · intro i h h2
    simp [fgOfGraph]
  · obtain ⟨nodes, edges⟩ := g
    simp only [fgOfGraph, graphOfFG, List.map_map, GraphData.mk.injEq]
    exact ⟨List.map_id'' (fun n => rfl) nodes, List.map_id'' (fun e => rfl) edges⟩

/-- Witness for `fgData_adapter_roundtrip` at a concrete two-node one-edge
graph, index 0. -/
theorem fgData_adapter_roundtrip_witness :
    ((fgOfGraph ⟨[⟨"topic", "T", some "d"⟩, ⟨"a", "A", none⟩], [⟨"topic", "a", some "rel"⟩]⟩).nodes.get
        ⟨0, by decide⟩).name = "T" := by
  have h := (fgData_adapter_roundtrip
    ⟨[⟨"topic", "T", some "d"⟩, ⟨"a", "A", none⟩], [⟨"topic", "a", some "rel"⟩]⟩).2.2.1
    0 (by decide) (by decide)
  exact h.2.1.trans (by decide)

/-- `s` contains `sub` as a contiguous substring. -/
def containsStr (s sub : String) : Prop := ∃ a b, s = a ++ sub ++ b

/-- Opening of the prompt template (App.tsx lines 86-90, after the template's
final `.trim()`), up to the "no markdown, no comments" parenthetical. -/
def promptP1 : String :=
  "You are an academic research assistant.\n\nGiven the following research topic, build a small related-work graph.\n\nReturn ONLY valid JSON with this exact shape ("

/-- The parenthetical of App.tsx line 90. -/
def promptNoMarkdown : String := "no markdown, no comments"

/-- Close of line 90 and the blank line before the shape block. -/
def promptP2 : String := "):\n\n"

/-- The JSON shape block of App.tsx lines 92-100. -/
def promptShape : String :=
  "\x7b\n  \"nodes\": [\n    \x7b \"id\": \"topic\", \"label\": string, \"description\": string \x7d,\n    \x7b \"id\": string, \"label\": string, \"description\": string \x7d\n  ],\n  \"edges\": [\n    \x7b \"from\": string, \"to\": string, \"relation\": string \x7d\n  ]\n\x7d"

/-- App.tsx line 102, up to the 4–8 instruction of line 103. -/
def promptP3 : String :=
  "\n\nThe \"topic\" node represents the user’s main research topic.\n"

/-- The node-count instruction of App.tsx line 103. -/
def promptAdd48 : String := "Add 4–8 related nodes"

/-- Rest of line 103, the relation instruction of line 104, and the lead-in of
line 106 up to the opening quote around the topic. -/
def promptP4 : String :=
  " (papers, sub-topics, or methods).\n\"relation\" should briefly describe how the two nodes are connected.\n\nResearch topic: \""

/-- The prompt built in `handleSubmit` (App.tsx lines 85-107): the template
literal with the topic interpolated at line 106, after `.trim()` strips the
leading newline and the trailing newline-plus-indent (the topic itself sits
between the fixed text and a closing double quote, so `.trim()` never touches
it). -/
def buildPrompt (topic : String) : String :=
  promptP1 ++ promptNoMarkdown ++ promptP2 ++ promptShape ++ promptP3 ++
    promptAdd48 ++ promptP4 ++ topic ++ "\""

/-- C6: for every non-empty topic string, the built prompt contains the exact
topic text verbatim, and contains the documented JSON shape request: the
shape block (topic node with id "topic", edges with a relation), the "Add
4–8 related nodes" instruction, and the "no markdown, no comments"
requirement. -/
theorem buildPrompt_contains (topic : String) (h : topic ≠ "") :
    containsStr (buildPrompt topic) topic ∧
    containsStr (buildPrompt topic) promptShape ∧
    containsStr (buildPrompt topic) "Add 4–8 related nodes" ∧
    containsStr (buildPrompt topic) "no markdown, no comments" := by
  refine ⟨⟨promptP1 ++ promptNoMarkdown ++ promptP2 ++ promptShape ++ promptP3 ++
      promptAdd48 ++ promptP4, "\"", ?_⟩,
    ⟨promptP1 ++ promptNoMarkdown ++ promptP2, promptP3 ++ promptAdd48 ++ promptP4 ++
      topic ++ "\"", ?_⟩,
    ⟨promptP1 ++ promptNoMarkdown ++ promptP2 ++ promptShape ++ promptP3,
      promptP4 ++ topic ++ "\"", ?_⟩,
    ⟨promptP1, promptP2 ++ promptShape ++ promptP3 ++ promptAdd48 ++ promptP4 ++
      topic ++ "\"", ?_⟩⟩ <;>
  simp only [buildPrompt, promptAdd48, promptNoMarkdown, String.append_assoc]

/-- Witness for `buildPrompt_contains` at the concrete topic "graph theory". -/
theorem buildPrompt_contains_witness :
    containsStr (buildPrompt "graph theory") "graph theory" ∧
    containsStr (buildPrompt "graph theory") promptShape ∧
    containsStr (buildPrompt "graph theory") "Add 4–8 related nodes" ∧
    containsStr (buildPrompt "graph theory") "no markdown, no comments" :=
  buildPrompt_contains "graph theory" (by decide)

/-- The canvas-size computation of the ResizeObserver effect (App.tsx lines
46-49): `Math.max(320, Math.floor(rect.width))` and
`Math.max(360, Math.floor(rect.height))`, on the observed container
rectangle's real-valued dimensions. -/
def computeSize (w h : ℚ) : ℤ × ℤ := (max 320 ⌊w⌋, max 360 ⌊h⌋)

/-- C8: for every observed container rectangle, including zero or negative
dimensions, the computed drawing-surface size is at least 320 wide and at
least 360 tall. -/
theorem computeSize_floor (w h : ℚ) :
    320 ≤ (computeSize w h).1 ∧ 360 ≤ (computeSize w h).2 :=
  ⟨le_max_left _ _, le_max_left _ _⟩

/-- `node.id === 'topic'` (App.tsx line 189). -/
def isTopicNode (n : FGNode) : Bool := n.id == "topic"

/-- `selected?.id === node.id` (App.tsx line 190): the optional-chaining
comparison is false when no node is selected. -/
def isSelectedNode (selected : Option FGNode) (n : FGNode) : Bool :=
  match selected with
  | none => false
  | some s => s.id == n.id

/-- Node radius from App.tsx line 194:
`(isTopic ? 10 : 7) + (isSelected ? 3 : 0)`. -/
def nodeRadius (selected : Option FGNode) (n : FGNode) : Nat :=
  (if isTopicNode n then 10 else 7) + (if isSelectedNode selected n then 3 else 0)

/-- Node fill from App.tsx line 199:
`isTopic ? '#111827' : isSelected ? '#1f2937' : '#374151'`. -/
def nodeFill (selected : Option FGNode) (n : FGNode) : String :=
  if isTopicNode n then "#111827"
  else if isSelectedNode selected n then "#1f2937"
  else "#374151"

/-- Modelled from the spec: the spec's designation rule "id = \"topic\", or
the first node if absent", to be compared with what the drawing code does. -/
def specTopicNode (nodes : List FGNode) : Option FGNode :=
  match nodes.find? (fun n => n.id == "topic") with
  | some n => some n
  | none => nodes.head?

/-- C4 counterexample: in a graph whose nodes are `a` and `b` (no node has id
"topic"), the claim designates the first node `a` as the topic node, but the
drawing code gives `a` the related radius 7 and related fill "#374151", not
the larger topic radius 10 and topic fill "#111827". -/
theorem nodeDraw_no_first_node_fallback :
    specTopicNode [⟨"a", "A", none⟩, ⟨"b", "B", none⟩] = some ⟨"a", "A", none⟩ ∧
    nodeRadius none ⟨"a", "A", none⟩ = 7 ∧
    nodeFill none ⟨"a", "A", none⟩ = "#374151" ∧
    ¬(nodeRadius none ⟨"a", "A", none⟩ = 10 ∧
      nodeFill none ⟨"a", "A", none⟩ = "#111827") := by
  decide

/-- C4 amended: the drawing code designates exactly the nodes whose id is
"topic" (no first-node fallback): a node with id "topic" gets base radius 10
and fill "#111827"; every other node gets base radius 7 and one of the two
related fills, never the topic fill. -/
theorem nodeDraw_topic_designation (selected : Option FGNode) (n : FGNode) :
    (n.id = "topic" →
      nodeRadius selected n = 10 + (if isSelectedNode selected n then 3 else 0) ∧
      nodeFill selected n = "#111827") ∧
    (n.id ≠ "topic" →
      nodeRadius selected n = 7 + (if isSelectedNode selected n then 3 else 0) ∧
      (nodeFill selected n = "#1f2937" ∨ nodeFill selected n = "#374151") ∧
      nodeFill selected n ≠ "#111827") := by
  constructor
  · intro h
    have ht : isTopicNode n = true := by simp [isTopicNode, h]
    simp [nodeRadius, nodeFill, ht]
  · intro h
    have ht : isTopicNode n = false := by simp [isTopicNode, h]
    refine ⟨by simp [nodeRadius, ht], ?_, ?_⟩
    · simp only [nodeFill, ht, Bool.false_eq_true, if_false]
      by_cases hs : isSelectedNode selected n = true
      · simp [hs]
      · simp [hs]
    · simp only [nodeFill, ht, Bool.false_eq_true, if_false]
      by_cases hs : isSelectedNode selected n = true
      · simp [hs]
      · simp [hs]

/-- Witness for `nodeDraw_topic_designation`: the topic branch at the node
with id "topic", and the related branch at a node with id "b", both with an
empty selection. -/
theorem nodeDraw_topic_designation_witness :
    (nodeRadius none ⟨"topic", "T", none⟩ = 10 +
        (if isSelectedNode none ⟨"topic", "T", none⟩ then 3 else 0) ∧
      nodeFill none ⟨"topic", "T", none⟩ = "#111827") ∧
    (nodeRadius none ⟨"b", "B", none⟩ = 7 +
        (if isSelectedNode none ⟨"b", "B", none⟩ then 3 else 0) ∧
      (nodeFill none ⟨"b", "B", none⟩ = "#1f2937" ∨
        nodeFill none ⟨"b", "B", none⟩ = "#374151") ∧
      nodeFill none ⟨"b", "B", none⟩ ≠ "#111827") :=
  ⟨(nodeDraw_topic_designation none ⟨"topic", "T", none⟩).1 rfl,
   (nodeDraw_topic_designation none ⟨"b", "B", none⟩).2 (by decide)⟩

/-- JavaScript's `String.prototype.trim` as used at App.tsx line 73: strip
leading and trailing whitespace. Written with structural list operations so
that concrete instances reduce. -/
def jsTrim (s : String) : String :=
  ⟨((s.data.dropWhile Char.isWhitespace).reverse.dropWhile Char.isWhitespace).reverse⟩

/-- The component state of `App` (App.tsx lines 30-35): topic input, current
graph, loading flag, error message, selected node. -/
structure AppState where
  topic : String
  graph : Option GraphData
  loading : Bool
  error : Option String
  selected : Option FGNode
deriving DecidableEq, Repr

/-- The provider's HTTP response as `handleSubmit` observes it: the status
line, and the result of the optional-chaining extraction
`data?.candidates?.[0]?.content?.parts?.[0]?.text` (App.tsx line 125), which
is either a string or undefined. -/
structure HttpResponse where
  status : Nat
  statusText : String
  text : Option String
deriving DecidableEq, Repr

/-- `res.ok` of the Fetch API: status in the inclusive range 200-299. -/
def HttpResponse.ok (r : HttpResponse) : Bool := 200 ≤ r.status && r.status ≤ 299

/-- JavaScript's truthiness test `!API_KEY` (App.tsx line 75): the key is
present iff it is defined and non-empty. -/
def keyPresent : Option String → Bool
  | none => false
  | some k => k != ""

/-- The error message set at App.tsx line 76. -/
def missingKeyMsg : String := "Missing Gemini API key. Set VITE_GEMINI_API_KEY in .env"

/-- The error message thrown at App.tsx line 126. -/
def emptyRespMsg : String := "Empty response from model"

/-- The error message thrown at App.tsx line 122:
`Gemini API error: ${res.status} ${res.statusText}`. -/
def httpErrMsg (status : Nat) (statusText : String) : String :=
  "Gemini API error: " ++ toString status ++ " " ++ statusText

/-- Result of one invocation of the submission handler: the new component
state and whether `fetch` was called. -/
structure SubmitResult where
  state : AppState
  fetchCalled : Bool
deriving DecidableEq, Repr

/-- `handleSubmit` (App.tsx lines 71-136). The network response `res` and the
external `JSON.parse` builtin are passed in explicitly: `parse` returns the
parsed `GraphData` or the message of the thrown parse error. In order:
the guard `if (!topic.trim()) return`; the guard `if (!API_KEY)` which sets
the error and returns before any other state change; the resets
`setLoading(true); setError(null); setGraph(null); setSelected(null)`; the
fetch and the `try`/`catch` over the status check, the envelope text check
and the parse; and `finally { setLoading(false) }`. -/
def handleSubmit (apiKey : Option String) (res : HttpResponse)
    (parse : String → Except String GraphData) (s : AppState) : SubmitResult :=
  if jsTrim s.topic = "" then ⟨s, false⟩
  else if !keyPresent apiKey then ⟨{ s with error := some missingKeyMsg }, false⟩
  else
    let s1 : AppState :=
      { s with loading := true, error := none, graph := none, selected := none }
    let s2 : AppState :=
      if !res.ok then { s1 with error := some (httpErrMsg res.status res.statusText) }
      else
        match res.text with
        | none => { s1 with error := some emptyRespMsg }
        | some t =>
          match parse t with
          | Except.error msg => { s1 with error := some msg }
          | Except.ok g => { s1 with graph := some g }
    ⟨{ s2 with loading := false }, true⟩

/-- `onNodeClick` (App.tsx line 186): `setSelected(n)`. -/
def onNodeClick (s : AppState) (n : FGNode) : AppState := { s with selected := some n }

/-- `onBackgroundClick` (App.tsx line 187): `setSelected(null)`. -/
def onBackgroundClick (s : AppState) : AppState := { s with selected := none }

/-- The attempted request fails inside the `try` block: non-success HTTP
status, missing envelope text, or a parse error of the model's text. -/
def attemptFails (res : HttpResponse) (parse : String → Except String GraphData) : Bool :=
  !res.ok ||
    match res.text with
    | none => true
    | some t =>
      match parse t with
      | Except.error _ => true
      | Except.ok _ => false

/-- C3: for every topic that is empty or whitespace-only, the submission
handler performs no network call and leaves all state (graph, selection,
error, loading) unchanged. -/
theorem handleSubmit_blank_topic_noop (apiKey : Option String) (res : HttpResponse)
    (parse : String → Except String GraphData) (s : AppState)
    (h : jsTrim s.topic = "") :
    handleSubmit apiKey res parse s = ⟨s, false⟩ := by
  simp [handleSubmit, h]

/-- Witness for `handleSubmit_blank_topic_noop` at a whitespace-only topic
with a previously rendered graph and selection. -/
theorem handleSubmit_blank_topic_noop_witness :
    handleSubmit (some "key") ⟨200, "OK", some "x"⟩ (fun _ => Except.error "e")
      ⟨"  ", some ⟨[], []⟩, false, none, some ⟨"a", "A", none⟩⟩ =
      ⟨⟨"  ", some ⟨[], []⟩, false, none, some ⟨"a", "A", none⟩⟩, false⟩ :=
  handleSubmit_blank_topic_noop (some "key") ⟨200, "OK", some "x"⟩
    (fun _ => Except.error "e") ⟨"  ", some ⟨[], []⟩, false, none, some ⟨"a", "A", none⟩⟩
    (by decide)

/-- C10: with an absent or empty API key and a non-blank topic, the handler
sets only the error message and returns before any network call: graph,
selection, loading and topic are all left unchanged. -/
theorem handleSubmit_missing_key_frame (apiKey : Option String) (res : HttpResponse)
    (parse : String → Except String GraphData) (s : AppState)
    (ht : jsTrim s.topic ≠ "") (hk : keyPresent apiKey = false) :
    handleSubmit apiKey res parse s =
      ⟨{ s with error := some missingKeyMsg }, false⟩ := by
  simp [handleSubmit, ht, hk]

/-- Witness for `handleSubmit_missing_key_frame`: key absent, a previously
rendered graph and selection stay in place, no fetch. -/
theorem handleSubmit_missing_key_frame_witness :
    handleSubmit none ⟨200, "OK", some "x"⟩ (fun _ => Except.error "e")
      ⟨"quantum", some ⟨[⟨"topic", "T", none⟩], []⟩, false, none, some ⟨"a", "A", none⟩⟩ =
      ⟨⟨"quantum", some ⟨[⟨"topic", "T", none⟩], []⟩, false, some missingKeyMsg,
        some ⟨"a", "A", none⟩⟩, false⟩ :=
  handleSubmit_missing_key_frame none ⟨200, "OK", some "x"⟩ (fun _ => Except.error "e")
    ⟨"quantum", some ⟨[⟨"topic", "T", none⟩], []⟩, false, none, some ⟨"a", "A", none⟩⟩
    (by decide) (by decide)

/-- C2 counterexample: with a previously rendered graph in state, a
submission that fails with the absent-API-key error class sets the error
message but does NOT leave the graph state empty — the early return at
App.tsx lines 75-78 happens before `setGraph(null)`, so the previous graph
is still rendered. -/
theorem handleSubmit_missing_key_keeps_graph :
    (handleSubmit none ⟨200, "OK", some "x"⟩ (fun _ => Except.error "e")
        ⟨"quantum", some ⟨[⟨"topic", "T", none⟩], []⟩, false, none, none⟩).state.error =
      some missingKeyMsg ∧
    (handleSubmit none ⟨200, "OK", some "x"⟩ (fun _ => Except.error "e")
        ⟨"quantum", some ⟨[⟨"topic", "T", none⟩], []⟩, false, none, none⟩).state.graph ≠
      none := by
  decide

/-- C2 amended: for every submission that fails with one of the three error
classes raised inside the attempt (non-success HTTP status, missing text
field in the provider envelope, JSON parse failure of the model's text), the
handler catches the failure, sets a single user-visible error message, and
leaves the graph state empty (cleared to none before the attempt), so no
graph is rendered; for the fourth class (absent API key) the handler sets
the error message but returns before the attempt, leaving the previous graph
state unchanged. -/
theorem handleSubmit_failure_classes (apiKey : Option String) (res : HttpResponse)
    (parse : String → Except String GraphData) (s : AppState)
    (ht : jsTrim s.topic ≠ "") :
    (keyPresent apiKey = true → attemptFails res parse = true →
      (handleSubmit apiKey res parse s).state.error.isSome = true ∧
      (handleSubmit apiKey res parse s).state.graph = none) ∧
    (keyPresent apiKey = false →
      (handleSubmit apiKey res parse s).state.error = some missingKeyMsg ∧
      (handleSubmit apiKey res parse s).state.graph = s.graph) := by
  constructor
  · intro hk hf
    by_cases hok : res.ok
    · cases htext : res.text with
      | none => simp [handleSubmit, ht, hk, hok, htext]
      | some t =>
        cases hp : parse t with
        | error msg => simp [handleSubmit, ht, hk, hok, htext, hp]
        | ok g =>
          exfalso
          simp [attemptFails, hok, htext, hp] at hf
    · simp [handleSubmit, ht, hk, hok]
  · intro hk
    simp [handleSubmit, ht, hk]

/-- Witness for `handleSubmit_failure_classes`: the parse-failure class with a
present key, and the missing-key class, both at concrete states. -/
theorem handleSubmit_failure_classes_witness :
    ((handleSubmit (some "key") ⟨200, "OK", some "not json"⟩
        (fun _ => Except.error "Unexpected token") ⟨"q", none, false, none, none⟩).state.error.isSome = true ∧
      (handleSubmit (some "key") ⟨200, "OK", some "not json"⟩
        (fun _ => Except.error "Unexpected token") ⟨"q", none, false, none, none⟩).state.graph = none) ∧
    ((handleSubmit none ⟨200, "OK", some "not json"⟩
        (fun _ => Except.error "Unexpected token") ⟨"q", some ⟨[], []⟩, false, none, none⟩).state.error =
        some missingKeyMsg ∧
      (handleSubmit none ⟨200, "OK", some "not json"⟩
        (fun _ => Except.error "Unexpected token") ⟨"q", some ⟨[], []⟩, false, none, none⟩).state.graph =
        some ⟨[], []⟩) :=
  ⟨(handleSubmit_failure_classes (some "key") ⟨200, "OK", some "not json"⟩
      (fun _ => Except.error "Unexpected token") ⟨"q", none, false, none, none⟩
      (by decide)).1 (by decide) (by decide),
   (handleSubmit_failure_classes none ⟨200, "OK", some "not json"⟩
      (fun _ => Except.error "Unexpected token") ⟨"q", some ⟨[], []⟩, false, none, none⟩
      (by decide)).2 (by decide)⟩

/-- C5: for every HTTP response with a non-success status (and a present key
and non-blank topic, so the request is actually made), the handler's error
message contains the numeric status code, and the graph state remains empty
so no graph is rendered. -/
theorem handleSubmit_http_error_status (apiKey : Option String) (res : HttpResponse)
    (parse : String → Except String GraphData) (s : AppState)
    (ht : jsTrim s.topic ≠ "") (hk : keyPresent apiKey = true)
    (hok : res.ok = false) :
    containsStr ((handleSubmit apiKey res parse s).state.error.getD "") (toString res.status) ∧
    (handleSubmit apiKey res parse s).state.graph = none := by
  have he : (handleSubmit apiKey res parse s).state.error =
      some (httpErrMsg res.status res.statusText) := by
    simp [handleSubmit, ht, hk, hok]
  refine ⟨?_, by simp [handleSubmit, ht, hk, hok]⟩
  rw [he]
  exact ⟨"Gemini API error: ", " " ++ res.statusText, by
    simp [httpErrMsg, String.append_assoc]⟩

/-- Witness for `handleSubmit_http_error_status` at status 503. -/
theorem handleSubmit_http_error_status_witness :
    containsStr ((handleSubmit (some "key") ⟨503, "Service Unavailable", none⟩
        (fun _ => Except.error "e") ⟨"q", none, false, none, none⟩).state.error.getD "")
      (toString 503) ∧
    (handleSubmit (some "key") ⟨503, "Service Unavailable", none⟩
        (fun _ => Except.error "e") ⟨"q", none, false, none, none⟩).state.graph = none :=
  handleSubmit_http_error_status (some "key") ⟨503, "Service Unavailable", none⟩
    (fun _ => Except.error "e") ⟨"q", none, false, none, none⟩
    (by decide) (by decide) (by decide)

/-- C7: the selection state machine: clicking a rendered node selects that
node; clicking the canvas background resets the selection to none; and a
successful generation (key present, non-blank topic, successful status,
envelope text present, parse succeeds, so a new graph is set) resets the
selection to none. -/
theorem selection_state_machine (s : AppState) (n : FGNode) (apiKey : Option String)
    (res : HttpResponse) (parse : String → Except String GraphData) (t : String)
    (g : GraphData) (ht : jsTrim s.topic ≠ "") (hk : keyPresent apiKey = true)
    (hok : res.ok = true) (htext : res.text = some t) (hp : parse t = Except.ok g) :
    (onNodeClick s n).selected = some n ∧
    (onBackgroundClick s).selected = none ∧
    (handleSubmit apiKey res parse s).state.graph = some g ∧
    (handleSubmit apiKey res parse s).state.selected = none := by
  refine ⟨rfl, rfl, ?_, ?_⟩ <;>
  simp [handleSubmit, ht, hk, hok, htext, hp]

/-- Witness for `selection_state_machine` at a concrete state and a
successful one-node generation. -/
theorem selection_state_machine_witness :
    (onNodeClick ⟨"q", none, true, none, none⟩ ⟨"a", "A", none⟩).selected =
      some ⟨"a", "A", none⟩ ∧
    (onBackgroundClick ⟨"q", none, true, none, some ⟨"a", "A", none⟩⟩).selected = none ∧
    (handleSubmit (some "key") ⟨200, "OK", some "{}"⟩
        (fun _ => Except.ok ⟨[⟨"topic", "T", none⟩], []⟩)
        ⟨"q", none, false, none, some ⟨"a", "A", none⟩⟩).state.graph =
      some ⟨[⟨"topic", "T", none⟩], []⟩ ∧
    (handleSubmit (some "key") ⟨200, "OK", some "{}"⟩
        (fun _ => Except.ok ⟨[⟨"topic", "T", none⟩], []⟩)
        ⟨"q", none, false, none, some ⟨"a", "A", none⟩⟩).state.selected = none := by
  have h1 := selection_state_machine ⟨"q", none, true, none, none⟩ ⟨"a", "A", none⟩
    (some "key") ⟨200, "OK", some "{}"⟩ (fun _ => Except.ok ⟨[⟨"topic", "T", none⟩], []⟩)
    "{}" ⟨[⟨"topic", "T", none⟩], []⟩ (by decide) (by decide) (by decide) rfl rfl
  have h2 := selection_state_machine ⟨"q", none, false, none, some ⟨"a", "A", none⟩⟩
    ⟨"a", "A", none⟩ (some "key") ⟨200, "OK", some "{}"⟩
    (fun _ => Except.ok ⟨[⟨"topic", "T", none⟩], []⟩)
    "{}" ⟨[⟨"topic", "T", none⟩], []⟩ (by decide) (by decide) (by decide) rfl rfl
  exact ⟨h1.1, h2.2.1, h2.2.2.1, h2.2.2.2⟩

/-- A pending timeout created by the auto-fit effect (App.tsx lines 141-143):
`setTimeout(() => fgRef.current?.zoomToFit?.(500, 60), 50)`. -/
structure FitTimer where
  id : Nat
  delay : Nat
deriving DecidableEq, Repr

/-- The browser timer table: a fresh-id counter and the list of pending
timeouts. -/
structure TimerWorld where
  nextId : Nat
  active : List FitTimer
deriving DecidableEq, Repr

/-- `setTimeout`: register a pending timeout with a fresh id. -/
def setTimeout (w : TimerWorld) (delay : Nat) : Nat × TimerWorld :=
  (w.nextId, { nextId := w.nextId + 1, active := w.active ++ [⟨w.nextId, delay⟩] })

/-- `clearTimeout`: drop the pending timeout with the given id, if any. -/
def clearTimeout (w : TimerWorld) (t : Nat) : TimerWorld :=
  { w with active := w.active.filter (fun tm => tm.id != t) }

/-- The fixed 50ms delay of App.tsx line 143. -/
def fitDelay : Nat := 50

/-- The auto-fit effect's lifecycle state: the timer table and the timer id
captured by the effect's registered cleanup `() => clearTimeout(t)`
(App.tsx line 144), if an effect run is live. -/
structure FitEffect where
  world : TimerWorld
  cleanup : Option Nat
deriving DecidableEq, Repr

/-- Events driving the auto-fit effect (App.tsx lines 139-145): the
render-model data changes to a new non-null value (React runs the previous
cleanup, then the effect body schedules a new fit); the data becomes null
(only the previous cleanup runs, the body returns at the guard); a browser
timer fires. -/
inductive FitEvent where
  | dataChange
  | dataCleared
  | timerFire (t : Nat)
deriving DecidableEq, Repr

/-- Run the currently registered effect cleanup, if any. -/
def runCleanup (s : FitEffect) : FitEffect :=
  match s.cleanup with
  | none => s
  | some t => ⟨clearTimeout s.world t, none⟩

/-- A `timerFire t` event actually executes the fit callback iff `t` is still
pending. -/
def fires (s : FitEffect) (t : Nat) : Bool :=
  s.world.active.any (fun tm => tm.id == t)

/-- One step of the auto-fit effect lifecycle. -/
def fitStep (s : FitEffect) : FitEvent → FitEffect
  | FitEvent.dataChange =>
      let s1 := runCleanup s
      ⟨(setTimeout s1.world fitDelay).2, some (setTimeout s1.world fitDelay).1⟩
  | FitEvent.dataCleared => runCleanup s
  | FitEvent.timerFire t =>
      if fires s t then ⟨clearTimeout s.world t, s.cleanup⟩ else s

/-- Initial lifecycle state: no timers, no registered cleanup. -/
def fitInit : FitEffect := ⟨⟨0, []⟩, none⟩

/-- The lifecycle state after a sequence of events from the initial state. -/
def fitRun (evts : List FitEvent) : FitEffect := evts.foldl fitStep fitInit

/-- Inductive invariant of the auto-fit lifecycle: either no fit is pending,
or exactly one is, it is the most recently created timer, it carries the
fixed 50ms delay, and the registered cleanup targets exactly it. -/
def FitInv (s : FitEffect) : Prop :=
  s.world.active = [] ∨
  ∃ tm, s.world.active = [tm] ∧ tm.id + 1 = s.world.nextId ∧ tm.delay = fitDelay ∧
    s.cleanup = some tm.id

theorem runCleanup_inv (s : FitEffect) (h : FitInv s) :
    (runCleanup s).world.active = [] ∧ (runCleanup s).world.nextId = s.world.nextId := by
  rcases h with h0 | ⟨tm, hact, hid, hd, hcl⟩
  · cases hc : s.cleanup with
    | none => simp [runCleanup, hc, h0]
    | some t => simp [runCleanup, hc, clearTimeout, h0]
  · simp [runCleanup, hcl, clearTimeout, hact]

theorem fitInv_step (s : FitEffect) (e : FitEvent) (h : FitInv s) :
    FitInv (fitStep s e) := by
  cases e with
  | dataChange =>
      obtain ⟨ha, hn⟩ := runCleanup_inv s h
      right
      exact ⟨⟨(runCleanup s).world.nextId, fitDelay⟩,
        by simp [fitStep, setTimeout, ha], by simp [fitStep, setTimeout], rfl,
        by simp [fitStep, setTimeout]⟩
  | dataCleared =>
      left
      exact (runCleanup_inv s h).1
  | timerFire t =>
      by_cases hf : fires s t
      · rcases h with h0 | ⟨tm, hact, hid, hd, hcl⟩
        · exfalso
          simp [fires, h0] at hf
        · left
          have hidt : tm.id = t := by simpa [fires, hact] using hf
          simp [fitStep, hf, clearTimeout, hact, hidt]
      · simpa [fitStep, hf] using h

theorem fitRun_inv (evts : List FitEvent) : FitInv (fitRun evts) := by
  suffices h : ∀ s, FitInv s → FitInv (evts.foldl fitStep s) from h fitInit (Or.inl rfl)
  induction evts with
  | nil => exact fun s hs => hs
  | cons e rest ih => exact fun s hs => ih (fitStep s e) (fitInv_step s e hs)

/-- C9: after any sequence of data changes and timer firings, at most one fit
is pending; every pending fit is the most recently scheduled one (with the
fixed 50ms delay); a further data change cancels the pending fit (the newly
scheduled fit is a different timer); and a timer that actually executes the
fit callback is always the latest scheduled one. -/
theorem autoFit_single_pending_latest (evts : List FitEvent) :
    (fitRun evts).world.active.length ≤ 1 ∧
    (∀ tm ∈ (fitRun evts).world.active,
      tm.id + 1 = (fitRun evts).world.nextId ∧ tm.delay = fitDelay) ∧
    (∀ tm ∈ (fitRun evts).world.active,
      tm ∉ (fitStep (fitRun evts) FitEvent.dataChange).world.active) ∧
    (∀ t, fires (fitRun evts) t = true → t + 1 = (fitRun evts).world.nextId) := by
  have hinv := fitRun_inv evts
  have hnewact : (fitStep (fitRun evts) FitEvent.dataChange).world.active =
      [⟨(fitRun evts).world.nextId, fitDelay⟩] := by
    obtain ⟨ha, hn⟩ := runCleanup_inv (fitRun evts) hinv
    simp [fitStep, setTimeout, ha, hn]
  rcases hinv with h0 | ⟨tm, hact, hid, hd, hcl⟩
  · refine ⟨by simp [h0], by simp [h0], by simp [h0], ?_⟩
    intro t hft
    exfalso
    simp [fires, h0] at hft
  · refine ⟨by simp [hact], ?_, ?_, ?_⟩
    · intro x hx
      rw [hact] at hx
      simp only [List.mem_singleton] at hx
      subst hx
      exact ⟨hid, hd⟩
    · intro x hx
      rw [hact] at hx
      simp only [List.mem_singleton] at hx
      subst hx
      rw [hnewact]
      simp only [List.mem_singleton]
      intro heq
      have : x.id = (fitRun evts).world.nextId := by rw [heq]
      omega
    · intro t hft
      simp only [fires, hact, List.any_cons, List.any_nil, Bool.or_false, beq_iff_eq] at hft
      omega

/-- Witness for `autoFit_single_pending_latest` after two consecutive data
changes: the pending timer is timer 1 (the latest; timer 0 was cancelled),
and only it can execute. -/
theorem autoFit_single_pending_latest_witness :
    (fitRun [FitEvent.dataChange, FitEvent.dataChange]).world.active.length ≤ 1 ∧
    ((⟨1, 50⟩ : FitTimer).id + 1 =
        (fitRun [FitEvent.dataChange, FitEvent.dataChange]).world.nextId ∧
      (⟨1, 50⟩ : FitTimer).delay = fitDelay) ∧
    (⟨1, 50⟩ : FitTimer) ∉
      (fitStep (fitRun [FitEvent.dataChange, FitEvent.dataChange])
        FitEvent.dataChange).world.active ∧
    (1 : Nat) + 1 = (fitRun [FitEvent.dataChange, FitEvent.dataChange]).world.nextId := by
  have h := autoFit_single_pending_latest [FitEvent.dataChange, FitEvent.dataChange]
  exact ⟨h.1, h.2.1 ⟨1, 50⟩ (by decide), h.2.2.1 ⟨1, 50⟩ (by decide),
    h.2.2.2 1 (by decide)⟩
